import Mathlib

/-!
Verification of the Swansea FS Pi5 dashboard core (telemetry-to-LED pipeline).

Shallow embedding of the C++ sources:
* `src/main.cpp` / `src/backupmain.cpp` — CAN field decoding (`u16_le`,
  `u16_be`, `u16_auto`), per-channel change de-duplication
  (`handle_2000` / `handle_2001`), and the LED animation
  (`updateRPMLEDs_progress`, main loop LED pass).
* `src/spi_ws2812.cpp` — the WS2812 SPI protocol encoder
  (`init_lut` / `NIBBLE_LUT`, `enc_byte`, `SpiWs2812::show`).

Machine integers are modelled as `Nat` with explicit `% 2^w` where the C++
types truncate (`uint8_t` payload bytes as `% 256`, `uint32_t` millisecond
subtraction via `u32_sub`).  The two floating-point computations of
`updateRPMLEDs_progress` (`pct`, `std::round(pct * LED_COUNT)`, the band
position test and the `0.20f` brightness scale) are modelled with exact
rational arithmetic; over the 16-bit RPM domain and the 0..255 byte domain
used here every float operation involved is monotone and agrees with the
exact value at every point these theorems evaluate (no input lands within
float rounding error of a discontinuity of `round`, `<=` or the truncating
 casts).
-/

namespace Dash

/-! ### CAN field decoding (src/main.cpp lines 111-122, src/backupmain.cpp lines 98-109) -/

/-- `u16_le` from main.cpp line 111: `d[0] | (uint16_t(d[1]) << 8)`.
Payload bytes are `uint8_t`, modelled by reducing each argument `% 256`. -/
def u16_le (d0 d1 : Nat) : Nat := (d0 % 256) ||| ((d1 % 256) <<< 8)

/-- `u16_be` from main.cpp line 112: `(uint16_t(d[0]) << 8) | d[1]`. -/
def u16_be (d0 d1 : Nat) : Nat := ((d0 % 256) <<< 8) ||| (d1 % 256)

/-- Result of `u16_auto`: the decoded value together with the `*used_be`
out-parameter. -/
structure U16Auto where
  value : Nat
  used_be : Bool
deriving DecidableEq, Repr

/-- `u16_auto` from main.cpp lines 113-122: interpret little-endian first;
when that value is zero, fall back to the big-endian interpretation. -/
def u16_auto (d0 d1 : Nat) : U16Auto :=
  let le := u16_le d0 d1
  if le ≠ 0 then ⟨le, false⟩ else ⟨u16_be d0 d1, true⟩

lemma nat_or_eq_zero_iff (a b : Nat) : a ||| b = 0 ↔ a = 0 ∧ b = 0 := by
  constructor
  · intro h
    have h' := fun i => congrArg (fun n => Nat.testBit n i) h
    simp only [Nat.testBit_or, Nat.zero_testBit, Bool.or_eq_false_iff] at h'
    exact ⟨Nat.eq_of_testBit_eq fun i => by simp [(h' i).1],
           Nat.eq_of_testBit_eq fun i => by simp [(h' i).2]⟩
  · rintro ⟨rfl, rfl⟩
    rfl

lemma u16_le_eq_zero_iff (d0 d1 : Nat) :
    u16_le d0 d1 = 0 ↔ d0 % 256 = 0 ∧ d1 % 256 = 0 := by
  unfold u16_le
  rw [nat_or_eq_zero_iff, Nat.shiftLeft_eq]
  constructor
  · rintro ⟨h0, h1⟩
    exact ⟨h0, by omega⟩
  · rintro ⟨h0, h1⟩
    exact ⟨h0, by omega⟩

/-! ### Change de-duplication (src/backupmain.cpp lines 145-149,
src/main.cpp lines 151-157)

`handle_2000` accepts an RPM raw value when
`last_rpm_raw == 0xFFFF || std::abs(int(rpm) - int(last_rpm_raw)) >= threshold`
(the threshold literal is 5 in backupmain.cpp and 1 in main.cpp); only then is
the value forwarded and written back into `last_rpm_raw`. -/

/-- Acceptance test of `handle_2000`, threshold abstracted. -/
def rpmAccept (th last new : Nat) : Bool :=
  (last == 65535) || decide (th ≤ ((new : Int) - (last : Int)).natAbs)

/-- Fold of `handle_2000`'s dedup over a sequence of raw RPM values: the
returned list is the emitted samples; the state is `last_rpm_raw`, updated
only on acceptance, exactly as in the source. -/
def rpmDedupRun (th : Nat) : Nat → List Nat → List Nat
  | _, [] => []
  | last, v :: vs =>
    if rpmAccept th last v then v :: rpmDedupRun th v vs
    else rpmDedupRun th last vs

/-! ### Continuous channels (src/backupmain.cpp lines 168-182 `handle_2001`,
src/main.cpp lines 164-172 coolant branch of `handle_2000`)

These handlers accept a raw value exactly when `raw != last`; the code reads
no clock in this path.  The handler is nevertheless invoked at some wall
clock instant, modelled by a `nowMs` argument — which the body, like the
source, never consults. -/

/-- One invocation of the continuous-channel dedup (`if (raw != last_oilp_raw)`
in `handle_2001`): returns the new stored value and whether the sample was
emitted to the display layer. -/
def contChannelStep (last raw nowMs : Nat) : Nat × Bool :=
  let _ := nowMs
  if raw ≠ last then (raw, true) else (last, false)

/-! ### Claim theorems: decoder and dedup -/

/-- C2: the decoder interprets the two payload bytes little-endian first and
takes the big-endian fallback exactly when the little-endian value is zero;
payload `[0x00,0x00]` takes the fallback, payload `[0x01,0x00]` returns the
little-endian value 1 without falling back. -/
theorem c2_endianness_recovery :
    (∀ d0 d1 : Nat,
      ((u16_auto d0 d1).used_be = true ↔ u16_le d0 d1 = 0) ∧
      (u16_auto d0 d1).value =
        (if u16_le d0 d1 = 0 then u16_be d0 d1 else u16_le d0 d1)) ∧
    (u16_auto 0 0).used_be = true ∧
    (u16_auto 1 0).used_be = false ∧ (u16_auto 1 0).value = 1 := by
  refine ⟨fun d0 d1 => ?_, by decide, by decide, by decide⟩
  by_cases h : u16_le d0 d1 = 0 <;> simp [u16_auto, h]

/-- C10: the big-endian fallback never changes the returned value — it fires
only when both bytes are zero, where the big-endian reading is also zero, so
`u16_auto` returns the plain little-endian value on every input. -/
theorem c10_auto_refines_le :
    ∀ d0 d1 : Nat, (u16_auto d0 d1).value = u16_le d0 d1 := by
  intro d0 d1
  by_cases h : u16_le d0 d1 = 0
  · obtain ⟨h0, h1⟩ := (u16_le_eq_zero_iff d0 d1).mp h
    simp [u16_auto, h, u16_be, u16_le, h0, h1]
  · simp [u16_auto, h]

/-- C4: `handle_2000` accepts a raw value iff the channel is still the 0xFFFF
sentinel or the absolute difference from the stored value reaches the
threshold, and with threshold 5 the sequence 1000, 1000, 1002, 1010 emits
exactly the two samples 1000 and 1010. -/
theorem c4_dedup :
    (∀ th last new : Nat,
      rpmAccept th last new = true ↔
        last = 65535 ∨ (th : Int) ≤ |(new : Int) - (last : Int)|) ∧
    rpmDedupRun 5 65535 [1000, 1000, 1002, 1010] = [1000, 1010] := by
  constructor
  · intro th last new
    simp only [rpmAccept, Bool.or_eq_true, beq_iff_eq, decide_eq_true_eq,
      Int.abs_eq_natAbs, Nat.cast_le]
  · decide

/-- C5 counterexample: a continuous-channel raw value equal to the stored
value is not re-emitted even 1000 ms (well past the claimed 250 ms refresh
interval) after the first emission: starting from the 0xFFFF sentinel, oil
pressure 100 at t=0 is emitted, then 100 again at t=1000 is not. -/
theorem c5_no_refresh_counterexample :
    (contChannelStep 65535 100 0).2 = true ∧
    (contChannelStep (contChannelStep 65535 100 0).1 100 1000).2 = false := by
  decide

/-- C5 amended: continuous channels have no refresh-timeout override — after
any sample is processed, an immediately following equal raw value is never
re-emitted, whatever wall-clock time has elapsed; a value is forwarded only
when it differs from the stored last value. -/
theorem c5_no_refresh_amended :
    ∀ last raw t1 t2 : Nat,
      (contChannelStep (contChannelStep last raw t1).1 raw t2).2 = false := by
  intro last raw t1 t2
  by_cases h : raw = last <;> simp [contChannelStep, h]

/-! ### WS2812 SPI protocol encoder (src/spi_ws2812.cpp)

`init_lut` (lines 15-27) builds a 16-entry nibble table: each of the 4
nibble bits, MSB first, expands to the 4-bit pattern `1110` (logical 1) or
`1000` (logical 0).  `SpiWs2812::show` (lines 74-110) encodes each byte of
the caller's GRB buffer into 4 SPI bytes via `enc_byte` (high nibble first),
walking the buffer in order `grb[i*3+0], grb[i*3+1], grb[i*3+2]` per LED. -/

/-- `NIBBLE_LUT[n]` from `init_lut`: the loop runs `i = 3 .. 0`, shifting the
accumulator left 4 bits and appending `1110` or `1000` for bit `i` of `n`. -/
def nibbleLut (n : Nat) : Nat :=
  (List.range 4).foldl
    (fun out i =>
      (out <<< 4) ||| (if (n >>> (3 - i)) &&& 1 = 1 then 0b1110 else 0b1000))
    0

/-- `enc_byte` from `SpiWs2812::show`: high nibble's LUT entry then low
nibble's, each emitted as two big-endian bytes. -/
def encByte (v : Nat) : List Nat :=
  let hi := nibbleLut ((v >>> 4) &&& 0x0F)
  let lo := nibbleLut (v &&& 0x0F)
  [hi >>> 8, hi &&& 0xFF, lo >>> 8, lo &&& 0xFF]

/-- The encoding loop of `SpiWs2812::show` (lines 93-98): for each LED `i`
encode buffer bytes `i*3+0`, `i*3+1`, `i*3+2` in that order.  Out-of-range
reads (which the theorems never exercise on well-sized buffers) default
to 0. -/
def showEncode (grbBuf : List Nat) (ledCount : Nat) : List Nat :=
  ((List.range ledCount).map fun i =>
    encByte (grbBuf.getD (i * 3 + 0) 0) ++
    encByte (grbBuf.getD (i * 3 + 1) 0) ++
    encByte (grbBuf.getD (i * 3 + 2) 0)).flatten

/-- `SpiWs2812::show` with the raw `write` abstracted away: `led_count <= 0`
returns success immediately with nothing encoded or written (lines 75-76);
otherwise the encoded buffer is produced and handed to the transport. -/
def spiShow (grbBuf : List Nat) (ledCount : Int) : Bool × List Nat :=
  if ledCount ≤ 0 then (true, [])
  else (true, showEncode grbBuf ledCount.toNat)

/-- One RGB color triple of an `LedFrame` (channel bytes). -/
structure Rgb where
  red : Nat
  green : Nat
  blue : Nat
deriving DecidableEq, Repr

/-- `uint8_t(v * 0.20f)` from backupmain.cpp `leds_set_rgb` (lines 72-77):
for byte inputs the float product truncates to `v / 5` exactly. -/
def scale20 (v : Nat) : Nat := (v % 256) / 5

/-- `leds_set_rgb` of backupmain.cpp applied to every LED of a frame: the
GRB byte buffer holds, per LED, the scaled green byte at offset `i*3+0`,
red at `i*3+1`, blue at `i*3+2`. -/
def buildGrbBuf : List Rgb → List Nat
  | [] => []
  | c :: cs =>
    scale20 c.green :: scale20 c.red :: scale20 c.blue :: buildGrbBuf cs

/-- Specification-side reading of the chipset contract: per LED the encoder
output is the encoding of that LED's green byte, then its red byte, then its
blue byte. -/
def specGrbOrder : List Rgb → List Nat
  | [] => []
  | c :: cs =>
    encByte (scale20 c.green) ++ encByte (scale20 c.red) ++
      encByte (scale20 c.blue) ++ specGrbOrder cs

lemma showEncode_nil_zero (buf : List Nat) : showEncode buf 0 = [] := rfl

lemma getD_cons3 (a b c d : Nat) (l : List Nat) (n : Nat) :
    (a :: b :: c :: l).getD (n + 3) d = l.getD n d := rfl

lemma showEncode_cons (a b c : Nat) (rest : List Nat) (n : Nat) :
    showEncode (a :: b :: c :: rest) (n + 1) =
      encByte a ++ encByte b ++ encByte c ++ showEncode rest n := by
  unfold showEncode
  rw [List.range_succ_eq_map, List.map_cons, List.map_map]
  have hfun :
      (fun i => encByte ((a :: b :: c :: rest).getD (i * 3 + 0) 0) ++
          encByte ((a :: b :: c :: rest).getD (i * 3 + 1) 0) ++
          encByte ((a :: b :: c :: rest).getD (i * 3 + 2) 0)) ∘ Nat.succ
      = fun i => encByte (rest.getD (i * 3 + 0) 0) ++
          encByte (rest.getD (i * 3 + 1) 0) ++
          encByte (rest.getD (i * 3 + 2) 0) := by
    funext i
    have h0 : (i + 1) * 3 + 0 = i * 3 + 0 + 3 := by ring
    have h1 : (i + 1) * 3 + 1 = i * 3 + 1 + 3 := by ring
    have h2 : (i + 1) * 3 + 2 = i * 3 + 2 + 3 := by ring
    simp only [Function.comp_apply, Nat.succ_eq_add_one, h0, h1, h2, getD_cons3]
    rfl
  rw [hfun]
  simp [List.getD, List.append_assoc]

lemma showEncode_length (buf : List Nat) (n : Nat) :
    (showEncode buf n).length = n * 12 := by
  unfold showEncode
  induction n with
  | zero => rfl
  | succ m ih =>
    rw [List.range_succ]
    simp only [List.map_append, List.flatten_append, List.length_append, ih]
    simp [encByte]
    ring

/-! ### Claim theorems: protocol encoder -/

/-- C3: for every `LedFrame`, the protocol encoder emits each LED's channels
in the fixed order green, red, blue, each paired with that same LED's green,
red and blue field values — the pipeline `leds_set_rgb` (GRB buffer layout)
followed by `SpiWs2812::show` (in-order encoding) never permutes or
mis-pairs the channels. -/
theorem c3_grb_channel_order :
    ∀ frame : List Rgb,
      showEncode (buildGrbBuf frame) frame.length = specGrbOrder frame := by
  intro frame
  induction frame with
  | nil => rfl
  | cons c cs ih =>
    simp only [buildGrbBuf, List.length_cons, specGrbOrder, ← ih]
    rw [showEncode_cons]

/-- C7: encoding `n` LEDs always yields exactly `n * 12` bytes; a 19-LED
all-black frame gives 228 bytes, and `led_count = 0` returns success with an
empty output and no write. -/
theorem c7_encode_length :
    (∀ buf : List Nat, ∀ n : Nat, (showEncode buf n).length = n * 12) ∧
    (showEncode (buildGrbBuf (List.replicate 19 ⟨0, 0, 0⟩)) 19).length = 228 ∧
    (∀ buf : List Nat, spiShow buf 0 = (true, [])) := by
  exact ⟨showEncode_length, by rw [showEncode_length], fun buf => rfl⟩

/-- C8: every color byte expands MSB-first into 32 serial bits with logical
1 ↦ `1110` and logical 0 ↦ `1000`; in particular `0xFF` encodes to four
`0xEE` bytes, all of whose 4-bit windows equal `1110`. -/
theorem c8_bit_mapping :
    (∀ v : Fin 256,
      (encByte v.val).foldl (fun a b => (a <<< 8) ||| b) 0 =
        (List.range 8).foldl
          (fun acc j =>
            (acc <<< 4) |||
              (if (v.val >>> (7 - j)) &&& 1 = 1 then 0b1110 else 0b1000))
          0) ∧
    encByte 0xFF = [0xEE, 0xEE, 0xEE, 0xEE] ∧
    (∀ k : Fin 8,
      (((encByte 0xFF).foldl (fun a b => (a <<< 8) ||| b) 0) >>> (4 * k.val))
        &&& 0xF = 0b1110) := by
  refine ⟨?_, by decide, by decide⟩
  set_option maxRecDepth 10000 in decide

/-! ### Strip animation, main.cpp variant (`updateRPMLEDs_progress`,
main.cpp lines 79-106, and the LED pass of the main loop, lines 326-333)

Constants from main.cpp / config.h: `LED_COUNT = 19`,
`RPM_DISPLAY_MAX = 20000`, `RPM_MAX = (int)(20000 * 0.85) = 17000`,
`FLICKER_INTERVAL_MS = 20`, `RPM_TIMEOUT_MS = 400`. -/

def LED_COUNT : Nat := 19

def RPM_DISPLAY_MAX : Nat := 20000

def RPM_MAX : Nat := 17000

def FLICKER_INTERVAL_MS : Nat := 20

def RPM_TIMEOUT_MS : Nat := 400

/-- `uint32_t` subtraction `a - b` (wall-clock millisecond deltas). -/
def u32_sub (a b : Nat) : Nat := (a % 2 ^ 32 + 2 ^ 32 - b % 2 ^ 32) % 2 ^ 32

/-- `pct` from main.cpp line 85: `std::min(1.0f, rpm / (float)RPM_DISPLAY_MAX)`,
in exact rational arithmetic. -/
def pct (rpm : Nat) : ℚ := min 1 ((rpm : ℚ) / (RPM_DISPLAY_MAX : ℚ))

/-- `lit` from main.cpp line 86: `int(std::round(pct * LED_COUNT))`.
`std::round` rounds half away from zero, which for the nonnegative domain
here is Mathlib's `round` (half up). -/
def litCount (rpm : Nat) : Nat := (round (pct rpm * (LED_COUNT : ℚ))).toNat

/-- The `grb` color-word builder of main.cpp lines 46-48:
`(g << 16) | (r << 8) | b` (the rpi_ws281x GRB word). -/
def ws2811_grb (r g b : Nat) : Nat :=
  ((g % 256) <<< 16) ||| ((r % 256) <<< 8) ||| (b % 256)

/-- The loop body of `updateRPMLEDs_progress` (main.cpp lines 98-104) for
LED `i`: band color locals `(r, g, b)` are chosen from the position
fraction, then the source calls `leds_set_rgb(i, g, r, b)` — its locals in
the order `(g, r, b)` against the parameter list `(r, g, b)` — so the word
stored for the red band `(r=255, g=0, b=0)` is `ws2811_grb 0 255 0`. -/
def progLedWord (i : Nat) : Nat :=
  let pos : ℚ := ((i : ℚ) + 1) / (LED_COUNT : ℚ)
  if pos ≤ 85 / 100 then ws2811_grb 0 255 0
  else ws2811_grb 0 128 128

/-- The LED words written by one rendered frame of
`updateRPMLEDs_progress`: LEDs below `lit` get their band word, the rest
stay cleared. -/
def litFrame (lit : Nat) : List Nat :=
  (List.range LED_COUNT).map fun i => if i < lit then progLedWord i else 0

/-- Mutable animation state of main.cpp: `g_flash_on`, `g_last_flash_ms`,
`g_leds_on`. -/
structure ProgState where
  flashOn : Bool
  lastFlashMs : Nat
  ledsOn : Bool
deriving DecidableEq, Repr

/-- `leds_off` (main.cpp lines 63-68): renders an all-black frame only when
the strip is currently on; otherwise nothing is rendered. -/
def ledsOffF (st : ProgState) : ProgState × Option (List Nat) :=
  if st.ledsOn then ({ st with ledsOn := false }, some (List.replicate LED_COUNT 0))
  else (st, none)

/-- `updateRPMLEDs_progress` (main.cpp lines 79-106): the returned frame is
what this call renders to the strip (`none` when no render happens). -/
def updateRPMLEDs_progress (rpm nowMs : Nat) (st : ProgState) :
    ProgState × Option (List Nat) :=
  if rpm = 0 then ledsOffF st
  else if RPM_MAX = 0 then ledsOffF st
  else
    let shouldFlash := decide ((85 : ℚ) / 100 ≤ pct rpm)
    let st1 :=
      if shouldFlash && decide (FLICKER_INTERVAL_MS ≤ u32_sub nowMs st.lastFlashMs)
      then { st with lastFlashMs := nowMs, flashOn := !st.flashOn }
      else st
    if shouldFlash && !st1.flashOn then ledsOffF st1
    else ({ st1 with ledsOn := true }, some (litFrame (litCount rpm)))

/-- Process-wide LED-relevant state of main.cpp's main loop. -/
structure MainState where
  prog : ProgState
  lastRpmRaw : Nat
  lastRpmFrameMs : Nat
deriving DecidableEq, Repr

/-- The LED pass of one main-loop iteration of main.cpp (lines 326-333) on a
cycle in which no CAN frame arrived: line 326 overwrites
`g_last_rpm_framems` with the current tick unconditionally, then
`updateRPMLEDs_progress(last_rpm_raw, now)` runs; the watchdog block that
would blank the strip after `RPM_TIMEOUT_MS` (lines 331-333) is commented
out in the source, so no further action is taken. -/
def mainLoopLedTick (nowMs : Nat) (s : MainState) :
    MainState × Option (List Nat) :=
  let s1 := { s with lastRpmFrameMs := nowMs }
  let pf := updateRPMLEDs_progress s1.lastRpmRaw nowMs s1.prog
  ({ s1 with prog := pf.1 }, pf.2)

/-- A rendered frame is all-black when every LED word is zero. -/
def allBlack (frame : List Nat) : Bool := frame.all (· == 0)

/-! Concrete evaluations of the rational parts of the model (the kernel
cannot reduce `Rat` normalisation, so these are settled by `norm_num`). -/

lemma pct_5000 : pct 5000 = 1 / 4 := by
  unfold pct RPM_DISPLAY_MAX
  rw [min_eq_right] <;> norm_num

lemma pct_65535 : pct 65535 = 1 := by
  unfold pct RPM_DISPLAY_MAX
  rw [min_eq_left]
  norm_num

lemma not_flash_5000 : ¬((85 : ℚ) / 100 ≤ pct 5000) := by
  rw [pct_5000]
  norm_num

lemma flash_65535 : (85 : ℚ) / 100 ≤ pct 65535 := by
  rw [pct_65535]
  norm_num

lemma litCount_5000 : litCount 5000 = 5 := by
  unfold litCount LED_COUNT
  rw [pct_5000, round_eq]
  have h1 : (1 / 4 : ℚ) * ((19 : ℕ) : ℚ) + 1 / 2 = 21 / 4 := by
    push_cast
    norm_num
  rw [h1]
  have h2 : ⌊(21 / 4 : ℚ)⌋ = 5 := by
    rw [Int.floor_eq_iff]
    norm_num
  rw [h2]
  rfl

lemma litCount_65535 : litCount 65535 = 19 := by
  unfold litCount LED_COUNT
  rw [pct_65535, round_eq]
  have h1 : (1 : ℚ) * ((19 : ℕ) : ℚ) + 1 / 2 = 39 / 2 := by
    push_cast
    norm_num
  rw [h1]
  have h2 : ⌊(39 / 2 : ℚ)⌋ = 19 := by
    rw [Int.floor_eq_iff]
    norm_num
  rw [h2]
  rfl

lemma progLedWord_ne_zero (i : Nat) : progLedWord i ≠ 0 := by
  show (if ((i : ℚ) + 1) / (LED_COUNT : ℚ) ≤ 85 / 100
        then ws2811_grb 0 255 0 else ws2811_grb 0 128 128) ≠ 0
  split <;> decide

lemma allBlack_litFrame_5 : allBlack (litFrame 5) = false := by
  rw [allBlack, List.all_eq_false]
  refine ⟨progLedWord 0, ?_, by simp [progLedWord_ne_zero 0]⟩
  unfold litFrame
  exact List.mem_map.mpr ⟨0, List.mem_range.mpr (by norm_num [LED_COUNT]), by simp⟩

lemma litFrame_19_all_ne : (litFrame 19).all (fun w => w != 0) = true := by
  rw [List.all_eq_true]
  intro x hx
  unfold litFrame at hx
  rcases List.mem_map.mp hx with ⟨i, hi, rfl⟩
  rw [List.mem_range] at hi
  have hi' : i < 19 := hi
  rw [if_pos hi']
  simp [progLedWord_ne_zero i]

/-! ### Claim theorems: animation engine -/

/-- C1: the claim requires a tick more than `RPM_TIMEOUT_MS = 400` ms after
the last received RPM frame to render an all-black frame regardless of the
last known rpm.  main.cpp violates this: with the last RPM frame (value
5000) received at t = 0 and nothing since, the tick at t = 401 renders
`litFrame 5` — five LEDs lit — because the watchdog block is commented out
and `g_last_rpm_framems` is overwritten every iteration.  This contradicts
the source's own documentation (`RPM_TIMEOUT_MS` is declared "blank if no
RPM frame"), so the claim is right and the code is the slip. -/
theorem c1_stale_tick_keeps_lit_frame :
    (mainLoopLedTick 401 ⟨⟨true, 0, true⟩, 5000, 0⟩).2 = some (litFrame 5) ∧
    allBlack (litFrame 5) = false := by
  refine ⟨?_, allBlack_litFrame_5⟩
  simp [mainLoopLedTick, updateRPMLEDs_progress, RPM_MAX,
    decide_eq_false not_flash_5000, litCount_5000]

/-- C6: the claim requires no LEDs to be lit before any RPM sample has been
received.  main.cpp violates this: `last_rpm_raw` starts at the 0xFFFF
sentinel and the main loop passes it to `updateRPMLEDs_progress` every
cycle, so the very first tick (here at t = 10 ms, before any CAN frame)
renders all 19 LEDs lit — the sentinel is treated as rpm 65535 and the
percentage clamps to 1.  The stale flag of the claimed Off state is never
consulted either (the watchdog is commented out). -/
theorem c6_sentinel_lights_strip_before_any_sample :
    (mainLoopLedTick 10 ⟨⟨true, 0, false⟩, 65535, 0⟩).2 = some (litFrame 19) ∧
    (litFrame 19).all (fun w => w != 0) = true := by
  refine ⟨?_, litFrame_19_all_ne⟩
  simp [mainLoopLedTick, updateRPMLEDs_progress, RPM_MAX, u32_sub,
    FLICKER_INTERVAL_MS, decide_eq_true flash_65535, litCount_65535]

/-- C9: the number of lit LEDs, `round(min(1, rpm/20000) * 19)`, is
monotonically non-decreasing in rpm. -/
theorem c9_lit_count_monotone (r1 r2 : Nat) (h : r1 ≤ r2) :
    litCount r1 ≤ litCount r2 := by
  unfold litCount
  apply Int.toNat_le_toNat
  rw [round_eq, round_eq]
  apply Int.floor_le_floor
  have hq : pct r1 ≤ pct r2 := by
    apply min_le_min le_rfl
    apply div_le_div_of_nonneg_right ?_ ?_
    · exact_mod_cast h
    · norm_num [RPM_DISPLAY_MAX]
  have h19 : (0 : ℚ) ≤ (LED_COUNT : ℚ) := by norm_num
  nlinarith [mul_le_mul_of_nonneg_right hq h19]

/-- C9 witness: the monotonicity theorem applied at rpm 5000 ≤ 20000. -/
theorem c9_lit_count_monotone_witness :
    5000 ≤ 20000 ∧ litCount 5000 ≤ litCount 20000 :=
  ⟨by norm_num, c9_lit_count_monotone 5000 20000 (by norm_num)⟩

end Dash
